import Mathlib

/-!
Shallow embedding of the Lab-Automation command core
(`src/commands/command.py`) and heating-stage device driver
(`src/devices/heating_stage.py`).

Python values that flow through command parameters are modelled by
`PyVal`; Python exceptions that claims mention are modelled by `PyExn`.
`devices/device.py` (the `ArduinoSerialDevice` base class with
`check_ack_succ` and `parse_equal_sign`) is not part of the sources, so
those two members are modelled from the spec where indicated.
-/

/-- A dynamically typed Python value as used by command parameters. -/
inductive PyVal where
  | str (s : String)
  | num (q : Rat)
  | int (n : Int)
  | bool (b : Bool)
deriving DecidableEq

/-- Python exceptions observable through the modelled API. -/
inductive PyExn where
  | attributeError
  | indexError
  | valueError
  | keyError
deriving DecidableEq

deriving instance DecidableEq for Except

/-- Models Python `str()` on a float whose value has a terminating
decimal expansion (the only floats the repository renders), e.g.
`26.0 ↦ "26.0"`, `2.5 ↦ "2.5"`, `0.25 ↦ "0.25"`. -/
def pyFloatStr (q : Rat) : String :=
  if q.den = 1 then toString q.num ++ ".0"
  else
    match (List.range 30).find? (fun k => 10 ^ (k + 1) % q.den == 0) with
    | some k0 =>
      let k := k0 + 1
      let scaled := q.num.natAbs * (10 ^ k / q.den)
      let s := toString scaled
      let s := String.mk (List.replicate (k + 1 - min s.length (k + 1)) '0') ++ s
      (if q.num < 0 then "-" else "") ++ s.take (s.length - k) ++ "." ++ s.drop (s.length - k)
    | none => toString q

/-- Models Python `str()` on a `PyVal`. -/
def pyStr : PyVal → String
  | .str s => s
  | .num q => pyFloatStr q
  | .int n => toString n
  | .bool b => if b then "True" else "False"

/-- The success/message pair every command records
(`_was_successful` / `_result_message`, both `None` at construction). -/
structure CmdState where
  was_successful : Option Bool
  result_message : Option String
deriving DecidableEq

/-- A command tree: a leaf is a concrete command whose `execute()`
records the given outcome (its rendered display name is carried for the
composite name getter); a `composite` node is a `CompositeCommand`
holding its ordered sub-command list. -/
inductive Cmd where
  | leaf (name : String) (outcome : Option Bool × Option String)
  | composite (subs : List Cmd)

mutual
/-- The `CmdState` a command holds after `execute()` returns, for a
command that has not been executed before (so a nested composite starts
from the unknown state its constructor gives it). -/
def execState : Cmd → CmdState
  | .leaf _ o => { was_successful := o.1, result_message := o.2 }
  | .composite subs => execList subs { was_successful := none, result_message := none }

/-- `CompositeCommand.execute` over the sub-command list: run each
sub-command, copy its state into the composite, and return early as soon
as `not command.was_successful` is truthy (i.e. the recorded flag is
`False` or still `None`). -/
def execList : List Cmd → CmdState → CmdState
  | [], st => st
  | c :: rest, st =>
    let cs := execState c
    if cs.was_successful = some true then execList rest cs else cs
end

mutual
/-- How many sub-commands of a list `CompositeCommand.execute` calls
`execute()` on (the loop stops after the first one whose recorded flag
is not `True`). -/
def execCount : List Cmd → Nat
  | [] => 0
  | c :: rest => if (execState c).was_successful = some true then 1 + execCount rest else 1
end

mutual
/-- A command's rendered display name: for a leaf it is the name the
concrete command renders; for a composite it is the
`CompositeCommand.name` getter's fold over the sub-command list. -/
def cmdName : Cmd → String
  | .leaf n _ => n
  | .composite subs => cmdNameList subs "CompositeCommand:"

/-- The loop of the `CompositeCommand.name` getter:
`self._name += " " + command.name + ";"` over the list. -/
def cmdNameList : List Cmd → String → String
  | [], acc => acc
  | c :: rest, acc => cmdNameList rest (acc ++ " " ++ cmdName c ++ ";")
end

/-- Models Python `list.insert(index, x)` (negative indices count from
the end; out-of-range indices are clamped). -/
def pyInsert (l : List α) (i : Int) (x : α) : List α :=
  let n : Int := l.length
  let j := if i < 0 then i + n else i
  let j := if j < 0 then 0 else if j > n then n else j
  l.take j.toNat ++ x :: l.drop j.toNat

/-- Models Python `del l[index]` (negative indices count from the end;
an out-of-range index raises `IndexError`). -/
def pyDelete (l : List α) (i : Int) : Except PyExn (List α) :=
  let n : Int := l.length
  let j := if i < 0 then i + n else i
  if j < 0 ∨ j ≥ n then .error .indexError
  else .ok (l.take j.toNat ++ l.drop (j.toNat + 1))

/-- A `CompositeCommand` object as built by `CompositeCommand.__init__`:
the constructor stores only the `delay` parameter and the two `None`
state fields.  `command_list` is `none` while the `_command_list`
attribute does not exist on the object (the constructor never creates
it); accessing it then raises `AttributeError`. -/
structure CompositeCommandObj where
  delay_param : PyVal
  was_successful : Option Bool
  result_message : Option String
  command_list : Option (List Cmd)

/-- `CompositeCommand.__init__(delay)`: sets `_params['delay']`,
`_was_successful = None`, `_result_message = None`, and never creates
`_command_list`. -/
def mkCompositeCommand (delay : PyVal) : CompositeCommandObj :=
  { delay_param := delay, was_successful := none, result_message := none,
    command_list := none }

/-- `CompositeCommand.add_command(command, index=None)`: append when no
index is given, otherwise `list.insert`; reading `_command_list` on an
object that lacks the attribute raises `AttributeError`. -/
def CompositeCommandObj.add_command (o : CompositeCommandObj) (c : Cmd)
    (index : Option Int) : Except PyExn CompositeCommandObj :=
  match o.command_list with
  | none => .error .attributeError
  | some l =>
    match index with
    | none => .ok { o with command_list := some (l ++ [c]) }
    | some i => .ok { o with command_list := some (pyInsert l i c) }

/-- `CompositeCommand.remove_command(index=None)`: `index = -1` when no
index is given, then `del self._command_list[index]`. -/
def CompositeCommandObj.remove_command (o : CompositeCommandObj)
    (index : Option Int) : Except PyExn CompositeCommandObj :=
  match o.command_list with
  | none => .error .attributeError
  | some l =>
    let i := match index with
      | none => (-1 : Int)
      | some i => i
    match pyDelete l i with
    | .error e => .error e
    | .ok l2 => .ok { o with command_list := some l2 }

/-- The `CompositeCommand.name` getter: `"CompositeCommand:"` followed
by each sub-command's name; iterating `_command_list` on an object that
lacks the attribute raises `AttributeError`. -/
def CompositeCommandObj.name_get (o : CompositeCommandObj) : Except PyExn String :=
  match o.command_list with
  | none => .error .attributeError
  | some l => .ok (cmdNameList l "CompositeCommand:")

/-- `CompositeCommand.execute()` at the object level: iterate the
sub-command list from the object's current state (raising
`AttributeError` when `_command_list` does not exist). -/
def CompositeCommandObj.execute (o : CompositeCommandObj) :
    Except PyExn CompositeCommandObj :=
  match o.command_list with
  | none => .error .attributeError
  | some l =>
    let st := execList l { was_successful := o.was_successful,
                           result_message := o.result_message }
    .ok { o with was_successful := st.was_successful,
                 result_message := st.result_message }

/-- A concrete `Command` object: its runtime class name, the ordered
`_params` dict (insertion order: `receiver_name`, `delay`, then any
parameters a child class adds), and the two state fields. -/
structure CommandObj where
  className : String
  params : List (String × PyVal)
  was_successful : Option Bool
  result_message : Option String

/-- `Command.__init__(receiver, delay=0.0)` followed by a child class
adding its own parameters: `_params` gets `receiver_name`, then `delay`,
then the extras, and both state fields start as `None`. -/
def mkCommand (className receiverName : String) (delay : PyVal)
    (extra : List (String × PyVal)) : CommandObj :=
  { className := className,
    params := ("receiver_name", .str receiverName) :: ("delay", delay) :: extra,
    was_successful := none, result_message := none }

/-- The loop of the `Command.name` getter: every parameter whose key is
not `delay` is rendered as `" key=value"`. -/
def nameBase (c : CommandObj) : String :=
  c.params.foldl
    (fun n p => if p.1 == "delay" then n else n ++ " " ++ p.1 ++ "=" ++ pyStr p.2)
    c.className

/-- Models Python `delay > 0.0` on the stored delay value (`True > 0.0`
holds in Python because `bool` is an `int`). -/
def pyGtZero : PyVal → Bool
  | .str _ => false
  | .num q => decide (0 < q)
  | .int n => decide (0 < n)
  | .bool b => b

/-- The `Command.name` getter: class name, then every parameter except
`delay` as `key=value`, then `delay` appended last — always when the
stored delay is a string, otherwise only when `delay > 0.0`.  Reading
`_params['delay']` raises `KeyError` when the key is absent (the
constructor always stores it). -/
def CommandObj.name_get (c : CommandObj) : Except PyExn String :=
  match c.params.find? (fun p => p.1 == "delay") with
  | none => .error .keyError
  | some p =>
    match p.2 with
    | .str s => .ok (nameBase c ++ " " ++ "delay=" ++ s)
    | v => .ok (if pyGtZero v then nameBase c ++ " " ++ "delay=" ++ pyStr v else nameBase c)

/-- Whether `pat` occurs as a contiguous substring of `s`. -/
def strContains (pat s : String) : Bool :=
  decide (List.IsInfix pat.data s.data)

mutual
/-- Every leaf in the tree records a boolean flag and a message, and
every composite node (the root included) has a non-empty sub-command
list. -/
def totalOutcome : Cmd → Bool
  | .leaf _ o => o.1.isSome && o.2.isSome
  | .composite subs => !subs.isEmpty && totalOutcomeList subs

/-- `totalOutcome` over a list of commands. -/
def totalOutcomeList : List Cmd → Bool
  | [] => true
  | c :: rest => totalOutcome c && totalOutcomeList rest
end

/-- The serial connection underneath a device: whether the port is open
and the command lines written to it so far. -/
structure Serial where
  is_open : Bool
  written : List String
deriving DecidableEq

/-- A `HeatingStage` object together with the observable serial world:
`port` is `_port`, `is_init` is `_is_initialized`, `heating_timeout` is
`_heating_timeout`, and `responses` scripts the outcome of each
two-phase handshake the device will run, in order. -/
structure HSState where
  port : String
  is_init : Bool
  heating_timeout : Rat
  ser : Serial
  responses : List (Bool × String)
deriving DecidableEq

/-- `self.ser.write(command.encode('ascii'))`. -/
def HSState.write (st : HSState) (line : String) : HSState :=
  { st with ser := { st.ser with written := st.ser.written ++ [line] } }

/-- Modelled from the spec: `ArduinoSerialDevice.check_ack_succ` from
`devices/device.py` (not among the sources).  It reads the two-phase
handshake — acknowledgment then completion, each under its own timeout —
and returns a success flag with the device's payload or a failure
message; it writes nothing.  Each call consumes the next scripted
`(bool, message)` outcome; an exhausted script models a handshake that
times out. -/
def check_ack_succ (st : HSState) : (Bool × String) × HSState :=
  match st.responses with
  | [] => ((false, "Timed out waiting for acknowledgement."), st)
  | r :: rest => (r, { st with responses := rest })

/-- Modelled from the spec: `ArduinoSerialDevice.parse_equal_sign` from
`devices/device.py` (not among the sources).  It extracts the value
portion of a `key=value`-shaped fragment and returns `(false, "")` when
no `=` is present; e.g. `"T=26.3" ↦ (true, "26.3")`, `"ON" ↦ (false, "")`. -/
def parse_equal_sign (text : String) : Bool × String :=
  match text.data.dropWhile (fun c => c != '=') with
  | [] => (false, "")
  | _ :: after => (true, String.mk after)

/-- The digits of a numeral read as a natural number. -/
def digitsVal (l : List Char) : Nat :=
  l.foldl (fun n c => 10 * n + (c.toNat - 48)) 0

/-- Splitting a character list at every occurrence of a separator. -/
def splitOnChar (sep : Char) : List Char → List (List Char)
  | [] => [[]]
  | c :: rest =>
    match splitOnChar sep rest with
    | [] => if c == sep then [[], []] else [[c]]
    | h :: t => if c == sep then [] :: h :: t else (c :: h) :: t

/-- Models Python's `float()` builtin on plain decimal strings (optional
sign, digits, optional fractional part); `none` models the `ValueError`
Python raises on anything else, e.g. `float("abc")`. -/
def pyFloat (s : String) : Option Rat :=
  let l0 := s.data
  let neg := l0.head? == some '-'
  let l := if neg || (l0.head? == some '+') then l0.drop 1 else l0
  let sgn : Rat := if neg then -1 else 1
  match splitOnChar '.' l with
  | [ip] =>
    if !ip.isEmpty && ip.all Char.isDigit then
      some (sgn * (digitsVal ip : Rat))
    else none
  | [ip, fp] =>
    if !(ip.isEmpty && fp.isEmpty) && (ip ++ fp).all Char.isDigit then
      some (sgn * ((digitsVal ip : Rat) + (digitsVal fp : Rat) / (10 ^ fp.length : Rat)))
    else none
  | _ => none

/-- `HeatingStage.set_settemp(temp)`. -/
def set_settemp (st : HSState) (temp : Rat) : (Bool × String) × HSState :=
  if !st.ser.is_open then
    ((false, "Serial port " ++ st.port ++ " is not open. "), st)
  else if !st.is_init then
    ((false, "Heating stage is not initialized."), st)
  else
    check_ack_succ (st.write (">set Ts " ++ pyFloatStr temp ++ "\n"))

/-- `HeatingStage.set_temp(temp)` (its handshake runs under the long
heating completion timeout, which does not change the scripted outcome). -/
def set_temp (st : HSState) (temp : Rat) : (Bool × String) × HSState :=
  if !st.ser.is_open then
    ((false, "Serial port " ++ st.port ++ " is not open. "), st)
  else if !st.is_init then
    ((false, "Heating stage is not initialized."), st)
  else
    check_ack_succ (st.write (">set T " ++ pyFloatStr temp ++ "\n"))

/-- `HeatingStage.pid_on()`. -/
def pid_on (st : HSState) : (Bool × String) × HSState :=
  if !st.ser.is_open then
    ((false, "Serial port " ++ st.port ++ " is not open. "), st)
  else if !st.is_init then
    ((false, "Heating stage is not initialized."), st)
  else
    check_ack_succ (st.write ">pidon\n")

/-- `HeatingStage.pid_off()` — no initialization check. -/
def pid_off (st : HSState) : (Bool × String) × HSState :=
  if !st.ser.is_open then
    ((false, "Serial port " ++ st.port ++ " is not open. "), st)
  else
    check_ack_succ (st.write ">pidoff\n")

/-- `HeatingStage.is_pid_on()` — no initialization check; on a
successful handshake the payload's `=`-value is compared with `"ON"`
exactly. -/
def is_pid_on (st : HSState) : (Bool × PyVal) × HSState :=
  if !st.ser.is_open then
    ((false, .str ("Serial port " ++ st.port ++ " is not open. ")), st)
  else
    let r := check_ack_succ (st.write ">pr pid\n")
    if !r.1.1 then ((r.1.1, .str r.1.2), r.2)
    else
      let p := parse_equal_sign r.1.2
      if !p.1 then ((p.1, .str "Message from device did not contain PID state."), r.2)
      else ((true, .bool (p.2 == "ON")), r.2)

/-- `HeatingStage.temperature()` — no initialization check; on a
successful handshake the payload's `=`-value is passed to Python's
`float()`, which raises `ValueError` when it is not numeric (the writes
already performed survive the exception). -/
def temperature (st : HSState) : Except PyExn (Bool × PyVal) × HSState :=
  if !st.ser.is_open then
    (.ok (false, .str ("Serial port " ++ st.port ++ " is not open. ")), st)
  else
    let r := check_ack_succ (st.write ">pr T\n")
    if !r.1.1 then (.ok (r.1.1, .str r.1.2), r.2)
    else
      let p := parse_equal_sign r.1.2
      if !p.1 then (.ok (p.1, .str "Message from device did not contain temperature."), r.2)
      else
        match pyFloat p.2 with
        | some q => (.ok (true, .num q), r.2)
        | none => (.error .valueError, r.2)

/-- `HeatingStage.initialize()`: set `_is_initialized = True`, then
`set_settemp(26.0)`; on failure roll the flag back and return that
result without running `pid_on`; otherwise `pid_on()`, with the same
failure handling; on success report the fixed success message. -/
def initStage (st : HSState) : (Bool × String) × HSState :=
  let st0 := { st with is_init := true }
  let r1 := set_settemp st0 26
  if !r1.1.1 then ((r1.1.1, r1.1.2), { r1.2 with is_init := false })
  else
    let r2 := pid_on r1.2
    if !r2.1.1 then ((r2.1.1, r2.1.2), { r2.2 with is_init := false })
    else
      ((true, "Heating stage successfully initialized by setting to 26 C and turning PID ON."),
       r2.2)

/-- `HeatingStage.deinitialize(reset_init_flag=True)`: set
`_is_initialized = True`, then `set_settemp(24.0)`; on failure roll the
flag back and return; otherwise `pid_off()`, with the same failure
handling; on success clear the flag only when `reset_init_flag` is set. -/
def deinitStage (st : HSState) (reset_init_flag : Bool) : (Bool × String) × HSState :=
  let st0 := { st with is_init := true }
  let r1 := set_settemp st0 24
  if !r1.1.1 then ((r1.1.1, r1.1.2), { r1.2 with is_init := false })
  else
    let r2 := pid_off r1.2
    if !r2.1.1 then ((r2.1.1, r2.1.2), { r2.2 with is_init := false })
    else
      let r2s := if reset_init_flag then { r2.2 with is_init := false } else r2.2
      ((true, "Heating stage successfully deinitialized by setting to 24 C and turning PID OFF."),
       r2s)

/-! ## Helper lemmas -/

theorem execCount_cons_pos (c : Cmd) (rest : List Cmd) : 1 ≤ execCount (c :: rest) := by
  rw [execCount]
  split <;> omega

theorem execList_getD (subs : List Cmd) : subs ≠ [] → ∀ st : CmdState,
    execList subs st = execState (subs.getD (execCount subs - 1) (Cmd.composite [])) := by
  induction subs with
  | nil => intro h; exact absurd rfl h
  | cons c rest ih =>
    intro _ st
    rw [execList, execCount]
    by_cases hc : (execState c).was_successful = some true
    · simp only [hc, if_pos rfl, if_true]
      cases rest with
      | nil => rw [execList]; simp [hc, execCount]
      | cons d ds =>
        obtain ⟨k, hk⟩ := Nat.exists_eq_add_of_le (execCount_cons_pos d ds)
        rw [ih (by simp) (execState c), hk]
        have h1 : 1 + (1 + k) - 1 = k + 1 := by omega
        have h2 : 1 + k - 1 = k := by omega
        rw [h1, h2, List.getD_cons_succ]
    · simp only [hc, if_neg, if_false]
      · simp [hc]

theorem execList_first_fail (c : Cmd) (post : List Cmd)
    (hc : (execState c).was_successful = some false) :
    ∀ pre : List Cmd, (∀ x ∈ pre, (execState x).was_successful = some true) →
      ∀ st : CmdState,
        execList (pre ++ c :: post) st = execState c ∧
        execCount (pre ++ c :: post) = pre.length + 1 := by
  intro pre
  induction pre with
  | nil =>
    intro _ st
    constructor
    · rw [List.nil_append, execList]; simp [hc]
    · rw [List.nil_append, execCount]; simp [hc]
  | cons p ps ih =>
    intro hall st
    have hp : (execState p).was_successful = some true := hall p (by simp)
    have ihr := ih (fun x hx => hall x (by simp [hx])) (execState p)
    constructor
    · rw [List.cons_append, execList]
      simp only [hp, if_pos rfl, if_true]
      exact ihr.1
    · rw [List.cons_append, execCount]
      simp only [hp, if_pos rfl, if_true, ihr.2, List.length_cons]
      omega

theorem execCount_all_true (subs : List Cmd)
    (hall : ∀ x ∈ subs, (execState x).was_successful = some true) :
    execCount subs = subs.length := by
  induction subs with
  | nil => rfl
  | cons c rest ih =>
    have hc : (execState c).was_successful = some true := hall c (by simp)
    rw [execCount]
    simp only [hc, if_pos rfl, if_true, List.length_cons,
      ih (fun x hx => hall x (by simp [hx]))]
    omega

/-! ## Claim theorems -/

/-- C1: For every `CompositeCommand` with a non-empty sub-command list,
after `execute()` the composite's `was_successful` and `result_message`
equal exactly those of the last sub-command on which `execute()` was
called (the sub-command at position `execCount - 1`); if the first `i`
sub-commands succeed and sub-command `i+1` reports failure, exactly
`i+1` sub-commands are executed — the later ones never run — and the
composite's state equals that sub-command's state; if every sub-command
succeeds, every one is executed and the composite's state equals the
last one's state. -/
theorem compositeCommand_execute_mirrors_last_attempted :
    (∀ (subs : List Cmd) (st : CmdState), subs ≠ [] →
      execList subs st = execState (subs.getD (execCount subs - 1) (Cmd.composite []))) ∧
    (∀ (pre : List Cmd) (c : Cmd) (post : List Cmd) (st : CmdState),
      (∀ x ∈ pre, (execState x).was_successful = some true) →
      (execState c).was_successful = some false →
      execList (pre ++ c :: post) st = execState c ∧
      execCount (pre ++ c :: post) = pre.length + 1) ∧
    (∀ (subs : List Cmd) (st : CmdState), subs ≠ [] →
      (∀ x ∈ subs, (execState x).was_successful = some true) →
      execList subs st = execState (subs.getD (subs.length - 1) (Cmd.composite [])) ∧
      execCount subs = subs.length) := by
  refine ⟨fun subs st h => execList_getD subs h st, ?_, ?_⟩
  · intro pre c post st hall hc
    exact execList_first_fail c post hc pre hall st
  · intro subs st hne hall
    have hcount := execCount_all_true subs hall
    exact ⟨by rw [execList_getD subs hne st, hcount], hcount⟩

/-- Witness for C1, on the spec's own scenario `[A(success),
B(fail, "overheat"), C(success)]`, plus the all-succeed case `[A, C]`. -/
theorem compositeCommand_execute_mirrors_last_attempted_witness :
    execList [Cmd.leaf "A" (some true, some "ok"),
              Cmd.leaf "B" (some false, some "overheat"),
              Cmd.leaf "C" (some true, some "ok")] ⟨none, none⟩ =
        ⟨some false, some "overheat"⟩ ∧
    execCount [Cmd.leaf "A" (some true, some "ok"),
               Cmd.leaf "B" (some false, some "overheat"),
               Cmd.leaf "C" (some true, some "ok")] = 2 ∧
    execList [Cmd.leaf "A" (some true, some "ok"),
              Cmd.leaf "C" (some true, some "ok")] ⟨none, none⟩ =
        ⟨some true, some "ok"⟩ ∧
    execCount [Cmd.leaf "A" (some true, some "ok"),
               Cmd.leaf "C" (some true, some "ok")] = 2 := by
  have h2 := compositeCommand_execute_mirrors_last_attempted.2.1
    [Cmd.leaf "A" (some true, some "ok")]
    (Cmd.leaf "B" (some false, some "overheat"))
    [Cmd.leaf "C" (some true, some "ok")] ⟨none, none⟩ (by decide) (by decide)
  have h3 := compositeCommand_execute_mirrors_last_attempted.2.2
    [Cmd.leaf "A" (some true, some "ok"), Cmd.leaf "C" (some true, some "ok")]
    ⟨none, none⟩ (List.cons_ne_nil _ _) (by decide)
  exact ⟨h2.1, h2.2, h3.1, h3.2⟩

/-- C2: A freshly constructed `CompositeCommand` (any delay) has no
`_command_list` attribute, so `add_command`, `remove_command`, the
`name` getter and `execute` all raise `AttributeError` on it. -/
theorem compositeCommand_fresh_missing_command_list
    (d : PyVal) (c : Cmd) (i j : Option Int) :
    (mkCompositeCommand d).command_list = none ∧
    (mkCompositeCommand d).add_command c i = .error .attributeError ∧
    (mkCompositeCommand d).remove_command j = .error .attributeError ∧
    (mkCompositeCommand d).name_get = .error .attributeError ∧
    CompositeCommandObj.execute (mkCompositeCommand d) = .error .attributeError :=
  ⟨rfl, rfl, rfl, rfl, rfl⟩

/-- C3: A `CompositeCommand` whose sub-command list is empty keeps its
initial unknown (`None`) `was_successful` and `result_message` through
`execute()`. -/
theorem compositeCommand_empty_list_execute_keeps_unknown (d : PyVal) :
    CompositeCommandObj.execute
        { mkCompositeCommand d with command_list := some [] } =
      .ok { mkCompositeCommand d with command_list := some [] } ∧
    (mkCompositeCommand d).was_successful = none ∧
    (mkCompositeCommand d).result_message = none :=
  ⟨rfl, rfl, rfl⟩

mutual
theorem totalOutcome_sound : ∀ c : Cmd, totalOutcome c = true →
    (execState c).was_successful.isSome = true ∧
    (execState c).result_message.isSome = true
  | Cmd.leaf n o => fun h => by
      rw [totalOutcome] at h
      rw [execState]
      exact Bool.and_eq_true _ _ |>.mp h
  | Cmd.composite subs => fun h => by
      rw [totalOutcome] at h
      have h' := Bool.and_eq_true _ _ |>.mp h
      rw [execState]
      refine totalOutcomeList_sound subs h'.2 ?_ ⟨none, none⟩
      intro hnil
      rw [hnil] at h'
      simp at h'

theorem totalOutcomeList_sound : ∀ l : List Cmd, totalOutcomeList l = true → l ≠ [] →
    ∀ st : CmdState,
      (execList l st).was_successful.isSome = true ∧
      (execList l st).result_message.isSome = true
  | [] => fun _ hne => absurd rfl hne
  | c :: rest => fun h _ st => by
      rw [totalOutcomeList] at h
      have h' := Bool.and_eq_true _ _ |>.mp h
      rw [execList]
      by_cases hc : (execState c).was_successful = some true
      · simp only [hc, if_pos rfl, if_true]
        cases rest with
        | nil =>
          rw [execList]
          exact totalOutcome_sound c h'.1
        | cons d ds =>
          exact totalOutcomeList_sound (d :: ds) h'.2 (List.cons_ne_nil _ _) (execState c)
      · simp only [if_neg hc]
        exact totalOutcome_sound c h'.1
end

/-- C6 (amended): `was_successful` and `result_message` are `None`
before the first `execute()` call, for concrete commands and for
composites alike; after `execute()` they are set — the flag boolean
and the message a string — for every concrete command and for every
composite all of whose (transitively nested) sub-command lists are
non-empty; a composite whose sub-command list is empty instead keeps
the unknown `None` state after `execute()`. -/
theorem command_state_boolean :
    (∀ cn rn d ex, (mkCommand cn rn d ex).was_successful = none ∧
      (mkCommand cn rn d ex).result_message = none) ∧
    (∀ d, (mkCompositeCommand d).was_successful = none ∧
      (mkCompositeCommand d).result_message = none) ∧
    (∀ c : Cmd, totalOutcome c = true →
      (execState c).was_successful.isSome = true ∧
      (execState c).result_message.isSome = true) :=
  ⟨fun _ _ _ _ => ⟨rfl, rfl⟩, fun _ => ⟨rfl, rfl⟩, totalOutcome_sound⟩

/-- Witness for C6: at a composite holding one boolean-recording leaf,
the state after `execute()` is boolean. -/
theorem command_state_boolean_witness :
    totalOutcome (Cmd.composite [Cmd.leaf "A" (some true, some "ok")]) = true ∧
    (execState (Cmd.composite [Cmd.leaf "A" (some true, some "ok")])).was_successful.isSome
      = true := by
  have h := command_state_boolean.2.2
    (Cmd.composite [Cmd.leaf "A" (some true, some "ok")]) (by decide)
  exact ⟨by decide, h.1⟩

/-- C6 counterexample: a `CompositeCommand` whose sub-command list is
empty comes out of `execute()` with `was_successful` still `None` — not
a boolean — refuting "after any execute() call it is a boolean". -/
theorem command_state_boolean_cex :
    CompositeCommandObj.execute
        { mkCompositeCommand (.num 0) with command_list := some [] } =
      .ok { mkCompositeCommand (.num 0) with command_list := some [] } ∧
    ({ mkCompositeCommand (.num 0) with
        command_list := some [] } : CompositeCommandObj).was_successful = none ∧
    ({ mkCompositeCommand (.num 0) with
        command_list := some [] } : CompositeCommandObj).was_successful.isSome = false :=
  ⟨rfl, rfl, rfl⟩

theorem check_ack_succ_ser (st : HSState) : (check_ack_succ st).2.ser = st.ser := by
  cases h : st.responses <;> simp [check_ack_succ, h]

theorem check_ack_succ_is_init (st : HSState) :
    (check_ack_succ st).2.is_init = st.is_init := by
  cases h : st.responses <;> simp [check_ack_succ, h]

theorem set_settemp_is_init (st : HSState) (temp : Rat) :
    (set_settemp st temp).2.is_init = st.is_init := by
  simp only [set_settemp]
  split
  · rfl
  · split
    · rfl
    · rw [check_ack_succ_is_init]
      rfl

theorem pid_off_is_init (st : HSState) :
    (pid_off st).2.is_init = st.is_init := by
  simp only [pid_off]
  split
  · rfl
  · rw [check_ack_succ_is_init]
    rfl

theorem is_pid_on_ser (st : HSState) (hopen : st.ser.is_open = true) :
    (is_pid_on st).2 = (check_ack_succ (st.write ">pr pid\n")).2 := by
  simp only [is_pid_on, hopen, Bool.not_true, Bool.false_eq_true, if_false]
  split
  · rfl
  · split <;> rfl

theorem temperature_ser (st : HSState) (hopen : st.ser.is_open = true) :
    (temperature st).2 = (check_ack_succ (st.write ">pr T\n")).2 := by
  simp only [temperature, hopen, Bool.not_true, Bool.false_eq_true, if_false]
  split
  · rfl
  · split
    · rfl
    · split <;> rfl

/-- A heating stage test fixture on port COM3 with nothing written yet. -/
def mkHS (isOpen isInit : Bool) (rs : List (Bool × String)) : HSState :=
  { port := "COM3", is_init := isInit, heating_timeout := 600,
    ser := { is_open := isOpen, written := [] }, responses := rs }

/-- C4 (amended): with the port open but the device not initialized,
`set_settemp`, `set_temp` and `pid_on` return
`(False, "Heating stage is not initialized.")` without writing a byte or
touching the handshake, while `pid_off`, `is_pid_on` and `temperature`
are callable in any initialization state and proceed to write their
command line. -/
theorem device_uninit_check_ops (st : HSState) (temp : Rat)
    (hopen : st.ser.is_open = true) (hinit : st.is_init = false) :
    set_settemp st temp = ((false, "Heating stage is not initialized."), st) ∧
    set_temp st temp = ((false, "Heating stage is not initialized."), st) ∧
    pid_on st = ((false, "Heating stage is not initialized."), st) ∧
    (pid_off st).2.ser.written = st.ser.written ++ [">pidoff\n"] ∧
    (is_pid_on st).2.ser.written = st.ser.written ++ [">pr pid\n"] ∧
    (temperature st).2.ser.written = st.ser.written ++ [">pr T\n"] := by
  refine ⟨?_, ?_, ?_, ?_, ?_, ?_⟩
  · simp [set_settemp, hopen, hinit]
  · simp [set_temp, hopen, hinit]
  · simp [pid_on, hopen, hinit]
  · simp only [pid_off, hopen, Bool.not_true, Bool.false_eq_true, if_false]
    rw [check_ack_succ_ser]
    rfl
  · rw [is_pid_on_ser st hopen, check_ack_succ_ser]
    rfl
  · rw [temperature_ser st hopen, check_ack_succ_ser]
    rfl

/-- Witness for C4: a concrete open, uninitialized stage. -/
theorem device_uninit_check_ops_witness :
    set_temp (mkHS true false [(false, "No ack")]) 50 =
      ((false, "Heating stage is not initialized."), mkHS true false [(false, "No ack")]) ∧
    (pid_off (mkHS true false [(false, "No ack")])).2.ser.written = [">pidoff\n"] := by
  have h := device_uninit_check_ops (mkHS true false [(false, "No ack")]) 50 rfl rfl
  exact ⟨h.2.1, h.2.2.2.1⟩

/-- C4 counterexample: on an open, uninitialized stage, `is_pid_on` does
not return `(False, "Heating stage is not initialized.")` with no bytes
written — it writes `">pr pid\n"` and reports the handshake outcome. -/
theorem device_uninit_check_claim_cex :
    (is_pid_on (mkHS true false [(false, "No ack")])).1 = (false, .str "No ack") ∧
    (is_pid_on (mkHS true false [(false, "No ack")])).2.ser.written = [">pr pid\n"] ∧
    is_pid_on (mkHS true false [(false, "No ack")]) ≠
      ((false, PyVal.str "Heating stage is not initialized."),
       mkHS true false [(false, "No ack")]) := by
  refine ⟨rfl, rfl, by decide⟩

/-- C5: in `HeatingStage.initialize()`, if the first step
(`set_settemp(26.0)`, run with the flag provisionally raised) fails,
`pid_on` is never run and the call returns `(False, <that step's
message>)` with `is_initialized` rolled back to `False` (the returned
state is exactly the first step's state with the flag cleared); if the
first step succeeds but `pid_on` fails, the call returns `(False,
<pid_on's message>)` with `is_initialized == False`. -/
theorem heatingStage_init_two_step (st : HSState) :
    ((set_settemp { st with is_init := true } 26).1.1 = false →
      initStage st = ((false, (set_settemp { st with is_init := true } 26).1.2),
        { (set_settemp { st with is_init := true } 26).2 with is_init := false })) ∧
    ((set_settemp { st with is_init := true } 26).1.1 = true →
      (pid_on (set_settemp { st with is_init := true } 26).2).1.1 = false →
      initStage st = ((false, (pid_on (set_settemp { st with is_init := true } 26).2).1.2),
        { (pid_on (set_settemp { st with is_init := true } 26).2).2 with is_init := false })) := by
  constructor
  · intro h1
    simp only [initStage, h1, Bool.not_false, if_true]
  · intro h1 h2
    simp only [initStage, h1, Bool.not_true, Bool.false_eq_true, if_false,
      h2, Bool.not_false, if_true]

/-- Witness for C5: one run where the `set_settemp` handshake fails, one
where it succeeds and the `pid_on` handshake fails. -/
theorem heatingStage_init_two_step_witness :
    (initStage (mkHS true false [(false, "No ack")])).1 = (false, "No ack") ∧
    (initStage (mkHS true false [(false, "No ack")])).2.is_init = false ∧
    (initStage (mkHS true false [(false, "No ack")])).2.ser.written = [">set Ts 26.0\n"] ∧
    (initStage (mkHS true false [(true, "ok"), (false, "pid fail")])).1 = (false, "pid fail") ∧
    (initStage (mkHS true false [(true, "ok"), (false, "pid fail")])).2.is_init = false := by
  have hA := (heatingStage_init_two_step (mkHS true false [(false, "No ack")])).1 (by decide)
  have hB := (heatingStage_init_two_step
    (mkHS true false [(true, "ok"), (false, "pid fail")])).2 (by decide) (by decide)
  rw [hA, hB]
  refine ⟨by decide, by decide, by decide, by decide, by decide⟩

theorem deinitStage_is_init (st : HSState) (flag : Bool) :
    (deinitStage st flag).2.is_init = ((deinitStage st flag).1.1 && !flag) := by
  simp only [deinitStage]
  split
  next h1 =>
    simp only [Bool.not_eq_true'] at h1
    simp [h1]
  next h1 =>
    split
    next h2 =>
      simp only [Bool.not_eq_true'] at h2
      simp [h2]
    next h2 =>
      cases flag with
      | true => simp
      | false =>
        simp only [Bool.false_eq_true, if_false, Bool.not_false, Bool.and_true]
        rw [pid_off_is_init, set_settemp_is_init]

/-- C9: after a successful `deinitialize`, `is_initialized` is `False`
when `reset_init_flag` is `True` and stays `True` when the flag is
suppressed; after a failure of either step, `is_initialized` is `False`. -/
theorem heatingStage_deinit_flag (st : HSState) (flag : Bool) :
    ((deinitStage st flag).1.1 = true → flag = true →
      (deinitStage st flag).2.is_init = false) ∧
    ((deinitStage st flag).1.1 = true → flag = false →
      (deinitStage st flag).2.is_init = true) ∧
    ((deinitStage st flag).1.1 = false →
      (deinitStage st flag).2.is_init = false) := by
  refine ⟨fun h hf => ?_, fun h hf => ?_, fun h => ?_⟩
  · rw [deinitStage_is_init, h, hf]
    rfl
  · rw [deinitStage_is_init, h, hf]
    rfl
  · rw [deinitStage_is_init, h]
    exact Bool.false_and _

/-- Witness for C9: a successful run with the flag set, one with it
suppressed, and a failing run. -/
theorem heatingStage_deinit_flag_witness :
    (deinitStage (mkHS true true [(true, "ok"), (true, "ok")]) true).2.is_init = false ∧
    (deinitStage (mkHS true true [(true, "ok"), (true, "ok")]) false).2.is_init = true ∧
    (deinitStage (mkHS true true [(false, "No ack")]) true).2.is_init = false := by
  have h1 := (heatingStage_deinit_flag (mkHS true true [(true, "ok"), (true, "ok")]) true).1
    (by decide) rfl
  have h2 := (heatingStage_deinit_flag (mkHS true true [(true, "ok"), (true, "ok")]) false).2.1
    (by decide) rfl
  have h3 := (heatingStage_deinit_flag (mkHS true true [(false, "No ack")]) true).2.2
    (by decide)
  exact ⟨h1, h2, h3⟩

/-- C10: when the port is open, the handshake succeeds and the
completion payload contains a `key=value` fragment, `is_pid_on` returns
`(True, b)` with `b` true exactly when the extracted value is the string
`"ON"`; any other extracted value (lowercase `"on"` included) gives
`(True, False)`. -/
theorem heatingStage_is_pid_on_exact_match (st : HSState)
    (payload : String) (rest : List (Bool × String))
    (hopen : st.ser.is_open = true)
    (hresp : st.responses = (true, payload) :: rest)
    (hparse : (parse_equal_sign payload).1 = true) :
    (is_pid_on st).1 = (true, .bool ((parse_equal_sign payload).2 == "ON")) ∧
    ((parse_equal_sign payload).2 ≠ "ON" → (is_pid_on st).1.2 = .bool false) := by
  have hr : check_ack_succ (st.write ">pr pid\n") =
      ((true, payload), { st.write ">pr pid\n" with responses := rest }) := by
    have hwr : (st.write ">pr pid\n").responses = (true, payload) :: rest := hresp
    rw [check_ack_succ, hwr]
  have hmain : (is_pid_on st).1 = (true, .bool ((parse_equal_sign payload).2 == "ON")) := by
    simp only [is_pid_on, hopen, Bool.not_true, Bool.false_eq_true, if_false, hr,
      Bool.not_false, if_true, hparse]
  refine ⟨hmain, fun hne => ?_⟩
  rw [hmain]
  simp [hne]

/-- Witness for C10: payload `"PID=on"` (lowercase) yields
`(True, False)`, payload `"PID=ON"` yields `(True, True)`. -/
theorem heatingStage_is_pid_on_exact_match_witness :
    (is_pid_on (mkHS true true [(true, "PID=on")])).1 = (true, .bool false) ∧
    (is_pid_on (mkHS true true [(true, "PID=ON")])).1 = (true, .bool true) := by
  have hlo := heatingStage_is_pid_on_exact_match (mkHS true true [(true, "PID=on")])
    "PID=on" [] rfl rfl (by decide)
  have hup := heatingStage_is_pid_on_exact_match (mkHS true true [(true, "PID=ON")])
    "PID=ON" [] rfl rfl (by decide)
  rw [hlo.1, hup.1]
  exact ⟨by decide, by decide⟩

theorem find_delay (cn rn : String) (d : PyVal) (extra : List (String × PyVal)) :
    (mkCommand cn rn d extra).params.find? (fun p => p.1 == "delay") = some ("delay", d) := by
  simp [mkCommand]

theorem name_get_mkCommand_num (cn rn : String) (q : Rat) (extra : List (String × PyVal)) :
    CommandObj.name_get (mkCommand cn rn (.num q) extra) =
      .ok (if 0 < q then
            nameBase (mkCommand cn rn (.num q) extra) ++ " " ++ "delay=" ++ pyFloatStr q
           else nameBase (mkCommand cn rn (.num q) extra)) := by
  rw [CommandObj.name_get, find_delay]
  simp only [pyGtZero, pyStr, decide_eq_true_eq]

theorem name_get_mkCommand_str (cn rn s : String) (extra : List (String × PyVal)) :
    CommandObj.name_get (mkCommand cn rn (.str s) extra) =
      .ok (nameBase (mkCommand cn rn (.str s) extra) ++ " " ++ "delay=" ++ s) := by
  rw [CommandObj.name_get, find_delay]

theorem strContains_append_pat (a pat b : String) :
    strContains pat (a ++ pat ++ b) = true := by
  apply decide_eq_true
  exact ⟨a.data, b.data, by simp⟩

/-- C7 (amended): the name is the class name followed by every parameter
except `delay` rendered as `key=value`, and the delay fragment comes
last; it is appended iff the stored delay is a string or a *positive*
number — "nonzero" corrected to "positive", since a negative delay is
omitted too.  With `delay=0` (and no other rendered parameter containing
`"delay="`) the name has no `"delay="` fragment; with a positive or
string delay the fragment `" delay=<value>"` is the final fragment of
the name. -/
theorem command_name_delay (cn rn : String) (extra : List (String × PyVal))
    (_hx : ∀ p ∈ extra, p.1 ≠ "delay" ∧ p.1 ≠ "receiver_name") :
    (∀ q : Rat, q ≤ 0 →
      CommandObj.name_get (mkCommand cn rn (.num q) extra) =
        .ok (nameBase (mkCommand cn rn (.num q) extra))) ∧
    (∀ q : Rat, 0 < q →
      CommandObj.name_get (mkCommand cn rn (.num q) extra) =
        .ok (nameBase (mkCommand cn rn (.num q) extra) ++ " " ++ "delay=" ++ pyFloatStr q)) ∧
    (∀ s : String,
      CommandObj.name_get (mkCommand cn rn (.str s) extra) =
        .ok (nameBase (mkCommand cn rn (.str s) extra) ++ " " ++ "delay=" ++ s)) ∧
    (∀ q : Rat, q ≤ 0 →
      strContains "delay=" (nameBase (mkCommand cn rn (.num q) extra)) = false →
      ∀ out, CommandObj.name_get (mkCommand cn rn (.num q) extra) = .ok out →
        strContains "delay=" out = false) ∧
    (∀ q : Rat, 0 < q →
      ∀ out, CommandObj.name_get (mkCommand cn rn (.num q) extra) = .ok out →
        strContains "delay=" out = true) ∧
    (∀ s : String,
      ∀ out, CommandObj.name_get (mkCommand cn rn (.str s) extra) = .ok out →
        strContains "delay=" out = true) := by
  refine ⟨fun q hq => ?_, fun q hq => ?_, fun s => name_get_mkCommand_str cn rn s extra,
    fun q hq hbase out hout => ?_, fun q hq out hout => ?_, fun s out hout => ?_⟩
  · rw [name_get_mkCommand_num, if_neg (not_lt.mpr hq)]
  · rw [name_get_mkCommand_num, if_pos hq]
  · rw [name_get_mkCommand_num, if_neg (not_lt.mpr hq)] at hout
    injection hout with h
    rw [h] at hbase
    exact hbase
  · rw [name_get_mkCommand_num, if_pos hq] at hout
    injection hout with h
    rw [← h]
    exact strContains_append_pat (nameBase (mkCommand cn rn (.num q) extra) ++ " ") "delay="
      (pyFloatStr q)
  · rw [name_get_mkCommand_str] at hout
    injection hout with h
    rw [← h]
    exact strContains_append_pat (nameBase (mkCommand cn rn (.str s) extra) ++ " ") "delay=" s

/-- Witness for C7: a command with one extra parameter `temp=80.0`; with
`delay=0` the name has no `delay=` fragment, with `delay=2.5` the
fragment `" delay=2.5"` ends the name, and with a string delay it is
always rendered. -/
theorem command_name_delay_witness :
    CommandObj.name_get (mkCommand "FooCommand" "dev1" (.num 0) [("temp", .num 80)]) =
      .ok "FooCommand receiver_name=dev1 temp=80.0" ∧
    strContains "delay=" "FooCommand receiver_name=dev1 temp=80.0" = false ∧
    CommandObj.name_get (mkCommand "FooCommand" "dev1"
        (.num (Rat.mk' 5 2 (by norm_num) (by norm_num))) [("temp", .num 80)]) =
      .ok "FooCommand receiver_name=dev1 temp=80.0 delay=2.5" ∧
    (Rat.mk' 5 2 (by norm_num) (by norm_num) : Rat) = 5 / 2 ∧
    CommandObj.name_get (mkCommand "FooCommand" "dev1" (.str "later") [("temp", .num 80)]) =
      .ok "FooCommand receiver_name=dev1 temp=80.0 delay=later" := by
  have hth := command_name_delay "FooCommand" "dev1" [("temp", .num 80)] (by decide)
  have h0 := hth.1 0 le_rfl
  have h25 := hth.2.1 (Rat.mk' 5 2 (by norm_num) (by norm_num)) (by decide)
  have hs := hth.2.2.1 "later"
  rw [h0, h25, hs]
  refine ⟨by decide, by decide, by decide, ?_, by decide⟩
  rw [Rat.mk'_eq_divInt, Rat.divInt_eq_div]
  norm_num

/-- C7 counterexample: with `delay = -1.0` — a nonzero number — the
rendered name contains no `"delay="` fragment, refuting "it appears if
and only if it is a non-numeric (string) value or a nonzero number". -/
theorem command_name_delay_cex :
    CommandObj.name_get (mkCommand "FooCommand" "dev1" (.num (-1)) []) =
      .ok "FooCommand receiver_name=dev1" ∧
    strContains "delay=" "FooCommand receiver_name=dev1" = false ∧
    PyVal.num (-1) ≠ PyVal.num 0 := by
  exact ⟨by decide, by decide, by decide⟩

/-- C8: evidence at the failing input — with the handshake completing
with payload `"T=abc"` (value after `=` not a parseable number),
`temperature()` raises `ValueError` out of `float("abc")` instead of
returning a `(False, message)` pair; a parseable payload like
`"T=26.3"` returns `(True, 26.3)`. -/
theorem heatingStage_temperature_value_error :
    (temperature (mkHS true true [(true, "T=abc")])).1 = .error .valueError ∧
    pyFloat "abc" = none ∧
    (temperature (mkHS true true [(true, "T=26.3")])).1 = .ok (true, .num (263 / 10)) := by
  refine ⟨rfl, rfl, ?_⟩
  have h : (temperature (mkHS true true [(true, "T=26.3")])).1 =
      Except.ok (true, PyVal.num (1 * (((26 : Nat) : Rat) + ((3 : Nat) : Rat) / (10 ^ 1 : Rat)))) :=
    rfl
  rw [h]
  norm_num
